import Mathlib

/-!
Shallow embedding of the userror crate (src/lib.rs): severity-labelled
diagnostic printing to standard error, with an optional colour feature and
a location-annotation macro.

The process environment visible to the code (result of
std::env::current_exe(), result of writing to stderr) is passed explicitly.
Each printing function returns the io::Result it would return together with
the list of write attempts it made on standard error, each element being
the full bytes of one writeln! call (line text plus trailing newline).
-/

namespace Userror

/-- An I/O error value (std::io::Error); the embedding only needs to
distinguish error values, not inspect them. -/
inductive IoError where
  | exeLookupFailed
  | brokenPipe
deriving DecidableEq

/-- The value produced by std::env::current_exe() on success.  `fileName`
models `path.file_name().and_then(|n| n.to_str())`: the final path
component as UTF-8 text, or none when the path has no file name or it is
not valid UTF-8. -/
structure ExePath where
  fileName : Option String
deriving DecidableEq

/-- The parts of the process state that `print` consults: the outcome of
the current_exe() query and the outcome of the single writeln! to
standard error. -/
structure Env where
  currentExe : Except IoError ExePath
  writeResult : Except IoError Unit

/-- The Colour enum: with the colour feature it is ansi_term::Colour, and
without it the crate defines its own enum with the same four variants
(src/lib.rs, cfg(not(feature = "colour"))). -/
inductive Colour where
  | Purple
  | Blue
  | Yellow
  | Red
deriving DecidableEq

/-- Modelled from the spec: ansi_term's source is not part of this
repository; the spec says coloured labels are wrapped in ANSI
foreground-colour escape sequences, which for ansi_term's
Purple/Blue/Yellow/Red are the standard codes 35/34/33/31. -/
def Colour.escapeCode : Colour → String
  | .Purple => "\x1b[35m"
  | .Blue => "\x1b[34m"
  | .Yellow => "\x1b[33m"
  | .Red => "\x1b[31m"

/-- The ANSI reset sequence appended by ansi_term after painted text. -/
def ansiReset : String := "\x1b[0m"

/-- Colour::paint.  With the colour feature off (the impl in src/lib.rs)
it is the identity on the string; with the feature on it wraps the string
in the colour's escape sequence and a reset.  The compile-time feature is
the `colourOn` parameter. -/
def Colour.paint (colourOn : Bool) (c : Colour) (s : String) : String :=
  if colourOn then c.escapeCode ++ s ++ ansiReset else s

/-- The `print` function of src/lib.rs.

    fn print(colour: Colour, level: &str, message: &str) -> io::Result<()>

`try!(std::env::current_exe())` propagates a lookup error to the caller
before anything is written.  Otherwise the line is formatted
"{}:{}: {}" with the Blue-painted file name, the painted level and the
message when the file name resolved, and "{}: {}" with the painted level
and the message when it did not, and written by one writeln! whose result
is returned. -/
def print (colourOn : Bool) (env : Env) (colour : Colour) (level message : String) :
    Except IoError Unit × List String :=
  match env.currentExe with
  | .error e => (.error e, [])
  | .ok program =>
    match program.fileName with
    | some name =>
        (env.writeResult,
          [Colour.paint colourOn .Blue name ++ ":" ++
            Colour.paint colourOn colour level ++ ": " ++ message ++ "\n"])
    | none =>
        (env.writeResult,
          [Colour.paint colourOn colour level ++ ": " ++ message ++ "\n"])

/-- pub fn internal: print(Colour::Red, "internal", message). -/
def internal (colourOn : Bool) (env : Env) (message : String) :
    Except IoError Unit × List String :=
  print colourOn env .Red "internal" message

/-- pub fn error: print(Colour::Red, "error", message). -/
def error (colourOn : Bool) (env : Env) (message : String) :
    Except IoError Unit × List String :=
  print colourOn env .Red "error" message

/-- pub fn warn: print(Colour::Yellow, "warning", message). -/
def warn (colourOn : Bool) (env : Env) (message : String) :
    Except IoError Unit × List String :=
  print colourOn env .Yellow "warning" message

/-- pub fn info: print(Colour::Purple, "info", message). -/
def info (colourOn : Bool) (env : Env) (message : String) :
    Except IoError Unit × List String :=
  print colourOn env .Purple "info" message

/-- How a call that does not return normally ends: a Rust panic with its
message.  `ok` is normal return. -/
inductive Outcome (α : Type) where
  | ok (a : α)
  | panicked (msg : String)
deriving DecidableEq

/-- pub fn fatal: print(Colour::Red, "fatal", message) followed by
.expect("failed to write error message") and then
panic!, with message "fatal error occurred".  Both paths end in a panic;
the function's Rust return type is ! (never). -/
def fatal (colourOn : Bool) (env : Env) (message : String) :
    Outcome Unit × List String :=
  match print colourOn env .Red "fatal" message with
  | (.ok _, w) => (.panicked "fatal error occurred", w)
  | (.error _, w) => (.panicked "failed to write error message", w)

/-- The flm! macro, zero-argument form: concat!(file!(), ":", line!()). -/
def flm0 (file : String) (line : Nat) : String :=
  file ++ ":" ++ toString line

/-- The flm! macro, single-message form:
concat!(file!(), ":", line!(), ": ", message). -/
def flm1 (file : String) (line : Nat) (message : String) : String :=
  file ++ ":" ++ toString line ++ ": " ++ message

/-- Rust format! hole substitution: each "\x7b\x7d" hole in the template
consumes the next positional argument (already rendered to its display
text).  Surplus holes are left in place (format! would reject them at
compile time, so that case is unreachable for the macro's uses). -/
def formatAux : List Char → List String → List Char
  | [], _ => []
  | '\x7b' :: '\x7d' :: rest, arg :: args => arg.data ++ formatAux rest args
  | '\x7b' :: '\x7d' :: rest, [] => '\x7b' :: '\x7d' :: formatAux rest []
  | c :: rest, args => c :: formatAux rest args

/-- Rust format! on a template and positional display-rendered arguments. -/
def rustFormat (template : String) (args : List String) : String :=
  ⟨formatAux template.data args⟩

/-- The flm! macro, formatted form:
format!(concat!(file!(), ":", line!(), ": ", template), args...). -/
def flmFmt (file : String) (line : Nat) (template : String) (args : List String) : String :=
  rustFormat (file ++ ":" ++ toString line ++ ": " ++ template) args

/-- Number of newline characters in a string. -/
def newlineCount (s : String) : Nat := s.data.count '\n'

/-- Number of ESC (0x1b) characters in a string; colour escape sequences
each contribute at least one. -/
def escCount (s : String) : Nat := s.data.count '\x1b'

/-- A resolved program name, when there is one, free of newlines and ESC
characters. -/
def envClean (env : Env) : Bool :=
  match env.currentExe with
  | .ok ⟨some name⟩ => newlineCount name == 0 && escCount name == 0
  | _ => true

/-- Environment whose program name resolves to "mytool" and whose stderr
write succeeds. -/
def envMytool : Env := ⟨.ok ⟨some "mytool"⟩, .ok ()⟩

/-- Environment where current_exe() succeeds but no UTF-8 file name can be
extracted. -/
def envNoName : Env := ⟨.ok ⟨none⟩, .ok ()⟩

/-- Environment where current_exe() itself fails. -/
def envExeErr : Env := ⟨.error .exeLookupFailed, .ok ()⟩

/-- Environment where the name resolves but the stderr write fails. -/
def envWriteFail : Env := ⟨.ok ⟨some "mytool"⟩, .error .brokenPipe⟩

lemma newlineCount_append (a b : String) :
    newlineCount (a ++ b) = newlineCount a + newlineCount b := by
  simp [newlineCount, String.data_append, List.count_append]

lemma escCount_append (a b : String) :
    escCount (a ++ b) = escCount a + escCount b := by
  simp [escCount, String.data_append, List.count_append]

lemma newlineCount_escapeCode (c : Colour) : newlineCount c.escapeCode = 0 := by
  cases c <;> decide

lemma escCount_escapeCode (c : Colour) : escCount c.escapeCode = 1 := by
  cases c <;> decide

lemma newlineCount_ansiReset : newlineCount ansiReset = 0 := by decide

lemma escCount_ansiReset : escCount ansiReset = 1 := by decide

lemma newlineCount_paint (colourOn : Bool) (c : Colour) (s : String) :
    newlineCount (Colour.paint colourOn c s) = newlineCount s := by
  cases colourOn with
  | false => simp [Colour.paint]
  | true =>
    simp [Colour.paint, newlineCount_append, newlineCount_escapeCode,
      newlineCount_ansiReset]

lemma escCount_paint_false (c : Colour) (s : String) :
    escCount (Colour.paint false c s) = escCount s := by
  simp [Colour.paint]

lemma escCount_paint_true (c : Colour) (s : String) :
    escCount (Colour.paint true c s) = escCount s + 2 := by
  simp [Colour.paint, escCount_append, escCount_escapeCode, escCount_ansiReset]
  omega

/-- What a successful call is claimed to produce: exactly one write, whose
bytes are some prefix followed by the painted severity label, ": ", the
message and a final newline; exactly one newline in total; and ESC bytes
exactly when the colour feature is on. -/
def oneLine (colourOn : Bool) (c : Colour) (label message : String)
    (out : Except IoError Unit × List String) : Prop :=
  out.1 = .ok () →
    ∃ line pre, out.2 = [line] ∧
      line = pre ++ (Colour.paint colourOn c label ++ ": " ++ message ++ "\n") ∧
      newlineCount line = 1 ∧
      (colourOn = false → escCount line = 0) ∧
      (colourOn = true → 0 < escCount line)

lemma data_empty : ("" : String).data = [] := rfl

lemma newlineCount_colon : newlineCount ":" = 0 := by decide

lemma newlineCount_colonSpace : newlineCount ": " = 0 := by decide

lemma newlineCount_nl : newlineCount "\n" = 1 := by decide

lemma escCount_colon : escCount ":" = 0 := by decide

lemma escCount_colonSpace : escCount ": " = 0 := by decide

lemma escCount_nl : escCount "\n" = 0 := by decide

lemma envClean_name {wr : Except IoError Unit} {name : String}
    (h : envClean ⟨.ok ⟨some name⟩, wr⟩ = true) :
    newlineCount name = 0 ∧ escCount name = 0 := by
  simpa [envClean, Bool.and_eq_true, beq_iff_eq] using h

lemma print_oneLine (colourOn : Bool) (env : Env) (c : Colour) (label message : String)
    (hl : newlineCount label = 0) (hle : escCount label = 0)
    (hm : newlineCount message = 0) (hme : escCount message = 0)
    (henv : envClean env = true) :
    oneLine colourOn c label message (print colourOn env c label message) := by
  rcases env with ⟨exe, wr⟩
  cases exe with
  | error e =>
    intro hok
    simp [print] at hok
  | ok p =>
    rcases p with ⟨fn⟩
    cases fn with
    | none =>
      intro _
      refine ⟨Colour.paint colourOn c label ++ ": " ++ message ++ "\n", "", rfl, ?_, ?_, ?_, ?_⟩
      · apply String.ext
        simp [String.data_append, data_empty]
      · simp [newlineCount_append, newlineCount_paint, hl, hm, newlineCount_colonSpace,
          newlineCount_nl]
      · intro hco
        subst hco
        simp [escCount_append, escCount_paint_false, hle, hme, escCount_colonSpace,
          escCount_nl]
      · intro hco
        subst hco
        simp [escCount_append, escCount_paint_true, hle, hme, escCount_colonSpace,
          escCount_nl]
    | some name =>
      intro _
      obtain ⟨hn, hne⟩ := envClean_name henv
      refine ⟨Colour.paint colourOn .Blue name ++ ":" ++
          Colour.paint colourOn c label ++ ": " ++ message ++ "\n",
        Colour.paint colourOn .Blue name ++ ":", rfl, ?_, ?_, ?_, ?_⟩
      · apply String.ext
        simp [String.data_append, List.append_assoc]
      · simp [newlineCount_append, newlineCount_paint, hl, hm, hn, newlineCount_colon,
          newlineCount_colonSpace, newlineCount_nl]
      · intro hco
        subst hco
        simp [escCount_append, escCount_paint_false, hle, hme, hne, escCount_colon,
          escCount_colonSpace, escCount_nl]
      · intro hco
        subst hco
        simp [escCount_append, escCount_paint_true, hle, hme, hne, escCount_colon,
          escCount_colonSpace, escCount_nl]

lemma print_attempts (colourOn : Bool) (env : Env) (c : Colour) (label M : String) :
    (print colourOn env c label M).2.length ≤ 1 ∧
    (∀ p, env.currentExe = .ok p →
      (print colourOn env c label M).2.length = 1 ∧
      (print colourOn env c label M).1 = env.writeResult) := by
  rcases env with ⟨exe, wr⟩
  cases exe with
  | error e =>
    refine ⟨by simp [print], ?_⟩
    intro p hp
    simp at hp
  | ok q =>
    rcases q with ⟨fn⟩
    cases fn with
    | some name =>
      exact ⟨by simp [print], fun p _ => ⟨by simp [print], rfl⟩⟩
    | none =>
      exact ⟨by simp [print], fun p _ => ⟨by simp [print], rfl⟩⟩

lemma fatal_writes (colourOn : Bool) (env : Env) (M : String) :
    (fatal colourOn env M).2 = (print colourOn env .Red "fatal" M).2 := by
  rcases hp : print colourOn env .Red "fatal" M with ⟨r, w⟩
  cases r <;> simp [fatal, hp]

lemma print_escFree (env : Env) (c : Colour) (label M : String)
    (hle : escCount label = 0) (hme : escCount M = 0)
    (henv : envClean env = true) :
    ∀ line ∈ (print false env c label M).2, escCount line = 0 := by
  rcases env with ⟨exe, wr⟩
  cases exe with
  | error e =>
    intro line hl
    simp [print] at hl
  | ok q =>
    rcases q with ⟨fn⟩
    cases fn with
    | none =>
      intro line hl
      simp [print] at hl
      subst hl
      simp [escCount_append, escCount_paint_false, hle, hme, escCount_colonSpace, escCount_nl]
    | some name =>
      intro line hl
      obtain ⟨hn, hne⟩ := envClean_name henv
      simp [print] at hl
      subst hl
      simp [escCount_append, escCount_paint_false, hle, hme, hne, escCount_colon,
        escCount_colonSpace, escCount_nl]

/-- Claim C6: for file "foo.rs" and line 42, flm!'s zero-argument form
yields "foo.rs:42", its single-message form with "hello" yields
"foo.rs:42: hello", and its formatted form with template "value=\x7b\x7d"
and argument 5 yields "foo.rs:42: value=5". -/
theorem flm_forms_at_foo_42 :
    flm0 "foo.rs" 42 = "foo.rs:42" ∧
    flm1 "foo.rs" 42 "hello" = "foo.rs:42: hello" ∧
    flmFmt "foo.rs" 42 "value=\x7b\x7d" [toString 5] = "foo.rs:42: value=5" :=
  ⟨rfl, rfl, rfl⟩

/-- Claim C1 (amended): for each of info, warn, error and internal, a
failure to extract a UTF-8 file name from the resolved executable path is
not surfaced as an error — the line is still written without the
program-name prefix and the write's result is returned — but a failure of
the current_exe() query itself is returned to the caller as an error with
nothing written (the try! on current_exe propagates it). -/
theorem exe_lookup_failure_surfaced_name_extraction_silent
    (colourOn : Bool) (env : Env) (M : String) :
    (env.currentExe = .ok ⟨none⟩ →
      info colourOn env M =
        (env.writeResult, [Colour.paint colourOn .Purple "info" ++ ": " ++ M ++ "\n"]) ∧
      warn colourOn env M =
        (env.writeResult, [Colour.paint colourOn .Yellow "warning" ++ ": " ++ M ++ "\n"]) ∧
      error colourOn env M =
        (env.writeResult, [Colour.paint colourOn .Red "error" ++ ": " ++ M ++ "\n"]) ∧
      internal colourOn env M =
        (env.writeResult, [Colour.paint colourOn .Red "internal" ++ ": " ++ M ++ "\n"])) ∧
    (∀ e, env.currentExe = .error e →
      info colourOn env M = (.error e, []) ∧
      warn colourOn env M = (.error e, []) ∧
      error colourOn env M = (.error e, []) ∧
      internal colourOn env M = (.error e, [])) := by
  rcases env with ⟨exe, wr⟩
  constructor
  · intro h
    obtain rfl : exe = .ok ⟨none⟩ := h
    exact ⟨rfl, rfl, rfl, rfl⟩
  · intro e h
    obtain rfl : exe = .error e := h
    exact ⟨rfl, rfl, rfl, rfl⟩

/-- Witness for the C1 theorem at concrete environments. -/
theorem exe_lookup_failure_surfaced_name_extraction_silent_witness :
    envNoName.currentExe = Except.ok ⟨none⟩ ∧
    warn false envNoName "m" =
      (envNoName.writeResult, [Colour.paint false .Yellow "warning" ++ ": " ++ "m" ++ "\n"]) ∧
    envExeErr.currentExe = Except.error IoError.exeLookupFailed ∧
    info false envExeErr "m" = (.error IoError.exeLookupFailed, []) :=
  ⟨rfl,
    ((exe_lookup_failure_surfaced_name_extraction_silent false envNoName "m").1 rfl).2.1,
    rfl,
    ((exe_lookup_failure_surfaced_name_extraction_silent false envExeErr
      "m").2 IoError.exeLookupFailed rfl).1⟩

/-- Counterexample to claim C1 as stated: when current_exe() itself fails,
info writes nothing to standard error and returns the lookup error to the
caller, not the result of a write. -/
theorem info_exe_lookup_failure_writes_nothing :
    (info false envExeErr "m").2 = [] ∧
    (info false envExeErr "m").1 = Except.error IoError.exeLookupFailed ∧
    (info false envExeErr "m").1 ≠ envExeErr.writeResult :=
  ⟨rfl, rfl, fun h => Except.noConfusion h⟩

/-- Claim C2 (amended): when current_exe() succeeds but no program name
can be extracted, warn "low memory" writes exactly the bytes
"warning: low memory\n" — the fallback path joins the severity label to
the message with the same ": " separator as the named path, not a bare
space. -/
theorem warn_fallback_low_memory (env : Env)
    (h : env.currentExe = .ok ⟨none⟩) :
    warn false env "low memory" = (env.writeResult, ["warning: low memory\n"]) := by
  rcases env with ⟨exe, wr⟩
  obtain rfl : exe = .ok ⟨none⟩ := h
  rfl

/-- Witness for the C2 theorem at a concrete environment. -/
theorem warn_fallback_low_memory_witness :
    envNoName.currentExe = Except.ok ⟨none⟩ ∧
    warn false envNoName "low memory" = (envNoName.writeResult, ["warning: low memory\n"]) :=
  ⟨rfl, warn_fallback_low_memory envNoName rfl⟩

/-- Counterexample to claim C2 as stated: the fallback line is
"warning: low memory\n", not "warning low memory\n". -/
theorem warn_fallback_separator_is_colon_space :
    warn false envNoName "low memory" = (Except.ok (), ["warning: low memory\n"]) ∧
    "warning: low memory\n" ≠ "warning low memory\n" :=
  ⟨rfl, by decide⟩

/-- Claim C3: fatal never returns control to the caller: when the
underlying print succeeds it ends in the explicit panic
"fatal error occurred" after writing, and when the print fails it ends in
the expect panic "failed to write error message". -/
theorem fatal_never_returns (colourOn : Bool) (env : Env) (M : String) :
    (∀ u : Unit, (fatal colourOn env M).1 ≠ Outcome.ok u) ∧
    ((print colourOn env .Red "fatal" M).1 = .ok () →
      fatal colourOn env M =
        (Outcome.panicked "fatal error occurred",
          (print colourOn env .Red "fatal" M).2)) ∧
    (∀ e, (print colourOn env .Red "fatal" M).1 = .error e →
      fatal colourOn env M =
        (Outcome.panicked "failed to write error message",
          (print colourOn env .Red "fatal" M).2)) := by
  rcases hp : print colourOn env .Red "fatal" M with ⟨r, w⟩
  cases r with
  | ok u =>
    refine ⟨?_, ?_, ?_⟩
    · intro v
      simp [fatal, hp]
    · intro _
      simp [fatal, hp]
    · intro e he
      simp at he
  | error e0 =>
    refine ⟨?_, ?_, ?_⟩
    · intro v
      simp [fatal, hp]
    · intro hok
      simp at hok
    · intro e he
      simp [fatal, hp]

/-- Witness for the C3 theorem: a successful write ends in the fatal
panic, a failed write ends in the expect panic. -/
theorem fatal_never_returns_witness :
    (print false envMytool .Red "fatal" "boom").1 = Except.ok () ∧
    fatal false envMytool "boom" =
      (Outcome.panicked "fatal error occurred",
        (print false envMytool .Red "fatal" "boom").2) ∧
    (print false envWriteFail .Red "fatal" "boom").1 = Except.error IoError.brokenPipe ∧
    fatal false envWriteFail "boom" =
      (Outcome.panicked "failed to write error message",
        (print false envWriteFail .Red "fatal" "boom").2) :=
  ⟨rfl, (fatal_never_returns false envMytool "boom").2.1 rfl, rfl,
    (fatal_never_returns false envWriteFail "boom").2.2 IoError.brokenPipe rfl⟩

/-- Claim C4 (amended): for every message free of newline and ESC
characters and every clean environment, a successful call to
info/warn/error/internal writes exactly one line: some prefix, then the
painted severity label, ": ", the message and a single terminating
newline, with exactly one newline in the whole write and ESC bytes
present exactly when the colour feature is on. -/
theorem severity_success_single_line (colourOn : Bool) (env : Env) (M : String)
    (hm : newlineCount M = 0) (hme : escCount M = 0)
    (henv : envClean env = true) :
    oneLine colourOn .Purple "info" M (info colourOn env M) ∧
    oneLine colourOn .Yellow "warning" M (warn colourOn env M) ∧
    oneLine colourOn .Red "error" M (error colourOn env M) ∧
    oneLine colourOn .Red "internal" M (internal colourOn env M) :=
  ⟨print_oneLine colourOn env .Purple "info" M (by decide) (by decide) hm hme henv,
    print_oneLine colourOn env .Yellow "warning" M (by decide) (by decide) hm hme henv,
    print_oneLine colourOn env .Red "error" M (by decide) (by decide) hm hme henv,
    print_oneLine colourOn env .Red "internal" M (by decide) (by decide) hm hme henv⟩

/-- Witness for the C4 theorem at a concrete input. -/
theorem severity_success_single_line_witness :
    newlineCount "disk full" = 0 ∧ escCount "disk full" = 0 ∧
    envClean envMytool = true ∧
    oneLine false .Red "error" "disk full" (error false envMytool "disk full") :=
  ⟨by decide, by decide, by decide,
    (severity_success_single_line false envMytool "disk full" (by decide) (by decide)
      (by decide)).2.2.1⟩

/-- Counterexample to claim C4 as stated: a message containing a newline
makes the single successful write contain two newline characters, so its
output is not one line terminated by a single newline. -/
theorem info_newline_message_not_single_line :
    info false envMytool "a\nb" = (Except.ok (), ["mytool:info: a\nb\n"]) ∧
    newlineCount "mytool:info: a\nb\n" = 2 ∧
    ¬ newlineCount "mytool:info: a\nb\n" = 1 :=
  ⟨rfl, by decide, by decide⟩

/-- Claim C5 (amended): when the program name resolves to "mytool" and
colour is disabled, error "disk full" writes exactly the bytes
"mytool:error: disk full\n" — a colon but no space between the program
name and the severity label. -/
theorem error_mytool_disk_full (env : Env)
    (h : env.currentExe = .ok ⟨some "mytool"⟩) :
    error false env "disk full" = (env.writeResult, ["mytool:error: disk full\n"]) := by
  rcases env with ⟨exe, wr⟩
  obtain rfl : exe = .ok ⟨some "mytool"⟩ := h
  rfl

/-- Witness for the C5 theorem at a concrete environment. -/
theorem error_mytool_disk_full_witness :
    envMytool.currentExe = Except.ok ⟨some "mytool"⟩ ∧
    error false envMytool "disk full" =
      (envMytool.writeResult, ["mytool:error: disk full\n"]) :=
  ⟨rfl, error_mytool_disk_full envMytool rfl⟩

/-- Counterexample to claim C5 as stated: the bytes written are
"mytool:error: disk full\n", not "mytool: error: disk full\n". -/
theorem error_mytool_no_space_after_name :
    error false envMytool "disk full" = (Except.ok (), ["mytool:error: disk full\n"]) ∧
    "mytool:error: disk full\n" ≠ "mytool: error: disk full\n" :=
  ⟨rfl, by decide⟩

/-- Claim C7: each of info/warn/error/internal makes at most one write
attempt, and whenever the executable path resolves — so the flow reaches
the single writeln! — it makes exactly one write attempt and returns that
write's result unchanged to the caller; in particular an I/O failure of
the write is returned as a recoverable error with no retry. -/
theorem single_write_attempt_no_retry (colourOn : Bool) (env : Env) (M : String) :
    ((info colourOn env M).2.length ≤ 1 ∧ (warn colourOn env M).2.length ≤ 1 ∧
      (error colourOn env M).2.length ≤ 1 ∧ (internal colourOn env M).2.length ≤ 1) ∧
    (∀ p, env.currentExe = .ok p →
      ((info colourOn env M).2.length = 1 ∧ (info colourOn env M).1 = env.writeResult) ∧
      ((warn colourOn env M).2.length = 1 ∧ (warn colourOn env M).1 = env.writeResult) ∧
      ((error colourOn env M).2.length = 1 ∧ (error colourOn env M).1 = env.writeResult) ∧
      ((internal colourOn env M).2.length = 1 ∧
        (internal colourOn env M).1 = env.writeResult)) :=
  ⟨⟨(print_attempts colourOn env .Purple "info" M).1,
      (print_attempts colourOn env .Yellow "warning" M).1,
      (print_attempts colourOn env .Red "error" M).1,
      (print_attempts colourOn env .Red "internal" M).1⟩,
    fun p hp =>
      ⟨(print_attempts colourOn env .Purple "info" M).2 p hp,
        (print_attempts colourOn env .Yellow "warning" M).2 p hp,
        (print_attempts colourOn env .Red "error" M).2 p hp,
        (print_attempts colourOn env .Red "internal" M).2 p hp⟩⟩

/-- Witness for the C7 theorem: a broken-pipe write failure is returned
verbatim after exactly one write attempt. -/
theorem single_write_attempt_no_retry_witness :
    envWriteFail.currentExe = Except.ok ⟨some "mytool"⟩ ∧
    (error false envWriteFail "disk full").2.length = 1 ∧
    (error false envWriteFail "disk full").1 = Except.error IoError.brokenPipe :=
  ⟨rfl,
    ((single_write_attempt_no_retry false envWriteFail "disk full").2
      ⟨some "mytool"⟩ rfl).2.2.1.1,
    ((single_write_attempt_no_retry false envWriteFail "disk full").2
      ⟨some "mytool"⟩ rfl).2.2.1.2⟩

/-- Claim C8: the severity → (label, colour) mapping is fixed:
info→Purple "info", warn→Yellow "warning", and error, fatal and internal
all share Red with labels "error", "fatal" and "internal"; the four
colours are pairwise distinct; the program-name prefix is always painted
Blue; and the message appears in the written line unpainted. -/
theorem severity_label_colour_mapping (colourOn : Bool) (env : Env) (M : String) :
    info colourOn env M = print colourOn env .Purple "info" M ∧
    warn colourOn env M = print colourOn env .Yellow "warning" M ∧
    error colourOn env M = print colourOn env .Red "error" M ∧
    internal colourOn env M = print colourOn env .Red "internal" M ∧
    (fatal colourOn env M).2 = (print colourOn env .Red "fatal" M).2 ∧
    (Colour.Purple ≠ Colour.Yellow ∧ Colour.Purple ≠ Colour.Red ∧
      Colour.Purple ≠ Colour.Blue ∧ Colour.Yellow ≠ Colour.Red ∧
      Colour.Yellow ≠ Colour.Blue ∧ Colour.Red ≠ Colour.Blue) ∧
    (∀ name c label, env.currentExe = .ok ⟨some name⟩ →
      (print colourOn env c label M).2 =
        [Colour.paint colourOn .Blue name ++ ":" ++
          Colour.paint colourOn c label ++ ": " ++ M ++ "\n"]) := by
  refine ⟨rfl, rfl, rfl, rfl, fatal_writes colourOn env M, by decide, ?_⟩
  intro name c label h
  rcases env with ⟨exe, wr⟩
  obtain rfl : exe = .ok ⟨some name⟩ := h
  rfl

/-- Witness for the C8 theorem at a concrete environment. -/
theorem severity_label_colour_mapping_witness :
    envMytool.currentExe = Except.ok ⟨some "mytool"⟩ ∧
    (print false envMytool .Red "error" "m").2 =
      [Colour.paint false .Blue "mytool" ++ ":" ++
        Colour.paint false .Red "error" ++ ": " ++ "m" ++ "\n"] :=
  ⟨rfl, (severity_label_colour_mapping false envMytool
    "m").2.2.2.2.2.2 "mytool" .Red "error" rfl⟩

/-- Claim C9: internal and error are both the same call into print with
Colour::Red, differing only in the label string ("internal" vs "error"):
they agree on the returned value in every environment, and their written
bytes are identical except for the label occupying the severity slot. -/
theorem internal_error_identical_up_to_label (colourOn : Bool) (env : Env) (M : String) :
    internal colourOn env M = print colourOn env .Red "internal" M ∧
    error colourOn env M = print colourOn env .Red "error" M ∧
    (internal colourOn env M).1 = (error colourOn env M).1 ∧
    (∀ name, env.currentExe = .ok ⟨some name⟩ →
      internal colourOn env M = (env.writeResult,
        [Colour.paint colourOn .Blue name ++ ":" ++
          Colour.paint colourOn .Red "internal" ++ ": " ++ M ++ "\n"]) ∧
      error colourOn env M = (env.writeResult,
        [Colour.paint colourOn .Blue name ++ ":" ++
          Colour.paint colourOn .Red "error" ++ ": " ++ M ++ "\n"])) ∧
    (env.currentExe = .ok ⟨none⟩ →
      internal colourOn env M = (env.writeResult,
        [Colour.paint colourOn .Red "internal" ++ ": " ++ M ++ "\n"]) ∧
      error colourOn env M = (env.writeResult,
        [Colour.paint colourOn .Red "error" ++ ": " ++ M ++ "\n"])) ∧
    (∀ e, env.currentExe = .error e →
      internal colourOn env M = (.error e, []) ∧
      error colourOn env M = (.error e, [])) := by
  refine ⟨rfl, rfl, ?_, ?_, ?_, ?_⟩
  · rcases env with ⟨exe, wr⟩
    cases exe with
    | error e => rfl
    | ok q =>
      rcases q with ⟨fn⟩
      cases fn <;> rfl
  · intro name h
    rcases env with ⟨exe, wr⟩
    obtain rfl : exe = .ok ⟨some name⟩ := h
    exact ⟨rfl, rfl⟩
  · intro h
    rcases env with ⟨exe, wr⟩
    obtain rfl : exe = .ok ⟨none⟩ := h
    exact ⟨rfl, rfl⟩
  · intro e h
    rcases env with ⟨exe, wr⟩
    obtain rfl : exe = .error e := h
    exact ⟨rfl, rfl⟩

/-- Witness for the C9 theorem: with program name "mytool" the two lines
differ exactly at the label slot. -/
theorem internal_error_identical_up_to_label_witness :
    envMytool.currentExe = Except.ok ⟨some "mytool"⟩ ∧
    internal false envMytool "m" = (envMytool.writeResult, ["mytool:internal: m\n"]) ∧
    error false envMytool "m" = (envMytool.writeResult, ["mytool:error: m\n"]) :=
  ⟨rfl,
    ((internal_error_identical_up_to_label false envMytool "m").2.2.2.1 "mytool" rfl).1,
    ((internal_error_identical_up_to_label false envMytool "m").2.2.2.1 "mytool" rfl).2⟩

/-- Claim C10: with the colour feature disabled, paint is the identity on
its string argument, print's result is independent of the Colour argument
passed to it, and (for ESC-free message and environment) every byte
sequence written by any of the severity functions contains no ESC
character. -/
theorem plain_mode_paint_identity_colour_independent
    (env : Env) (M : String) (c₁ c₂ : Colour) (label : String)
    (hme : escCount M = 0) (henv : envClean env = true) :
    (∀ c s, Colour.paint false c s = s) ∧
    print false env c₁ label M = print false env c₂ label M ∧
    (∀ line ∈ (info false env M).2, escCount line = 0) ∧
    (∀ line ∈ (warn false env M).2, escCount line = 0) ∧
    (∀ line ∈ (error false env M).2, escCount line = 0) ∧
    (∀ line ∈ (internal false env M).2, escCount line = 0) ∧
    (∀ line ∈ (fatal false env M).2, escCount line = 0) := by
  refine ⟨fun c s => rfl, ?_, ?_, ?_, ?_, ?_, ?_⟩
  · rcases env with ⟨exe, wr⟩
    cases exe with
    | error e => rfl
    | ok q =>
      rcases q with ⟨fn⟩
      cases fn <;> rfl
  · exact print_escFree env .Purple "info" M (by decide) hme henv
  · exact print_escFree env .Yellow "warning" M (by decide) hme henv
  · exact print_escFree env .Red "error" M (by decide) hme henv
  · exact print_escFree env .Red "internal" M (by decide) hme henv
  · intro line hl
    rw [fatal_writes false env M] at hl
    exact print_escFree env .Red "fatal" M (by decide) hme henv line hl

/-- Witness for the C10 theorem at a concrete input. -/
theorem plain_mode_paint_identity_colour_independent_witness :
    escCount "disk full" = 0 ∧ envClean envMytool = true ∧
    print false envMytool Colour.Red "error" "disk full" =
      print false envMytool Colour.Purple "error" "disk full" :=
  ⟨by decide, by decide,
    (plain_mode_paint_identity_colour_independent envMytool "disk full" .Red .Purple
      "error" (by decide) (by decide)).2.1⟩

end Userror
